import Mathlib

/-!
Verification development for the MOVIES_MAGIC_CLUB automation pipeline.

The definitions below are a shallow embedding of the Python sources under
`automation/`: `tamilmv_scraper.py` (Selector and size parsing),
`seedr_handler.py` (Remote Fetcher), `ppd_uploader.py` (Distributor),
`movie_processor.py` (orchestrator, batch scan and database save).
External HTTP services and the MongoDB store are modelled as explicit
environments (functions giving the response of each call) and an explicit
list of documents, respectively.  Python floats are modelled as rationals,
Python exceptions as `Except Unit`, and Python truthiness explicitly.
-/

/-- JSON-like scalar value as it appears in the remote API responses that the
handlers read with `dict.get`: an integer, a string, or null/absent. -/
inductive JVal where
  | jnum : Int → JVal
  | jstr : String → JVal
  | jnull : JVal
deriving DecidableEq

/-- Python truthiness of a JSON scalar: 0, "" and None are falsy. -/
def truthyJ : JVal → Bool
  | .jnum n => n != 0
  | .jstr s => s != ""
  | .jnull => false

/-- Python `a or b` on JSON scalars: `a` if truthy, else `b`. -/
def pyOr (a b : JVal) : JVal := if truthyJ a then a else b

/-- Python truthiness of an optional string (absent and "" are falsy). -/
def sTruthy : Option String → Bool
  | none => false
  | some s => s != ""

/-- Python `a or b` on optional strings. -/
def pyOrS (a b : Option String) : Option String := if sTruthy a then a else b

/-- Value of a list of decimal digit characters. -/
def digitsToNat (ds : List Char) : Nat := ds.foldl (fun n c => 10 * n + (c.toNat - 48)) 0

/-- Python `int(s)` on a string: optional surrounding whitespace, optional
sign, then decimal digits; anything else raises `ValueError`. -/
def parsePyInt (s : String) : Option Int :=
  let cs := ((s.toList.dropWhile Char.isWhitespace).reverse.dropWhile Char.isWhitespace).reverse
  match cs with
  | [] => none
  | c :: ds =>
    if c = '-' then
      if !ds.isEmpty && ds.all Char.isDigit then some (-(digitsToNat ds : Int)) else none
    else if c = '+' then
      if !ds.isEmpty && ds.all Char.isDigit then some ((digitsToNat ds : Int)) else none
    else if (c :: ds).all Char.isDigit then some ((digitsToNat (c :: ds) : Int)) else none

/-- Python `int(x)` on a JSON scalar: succeeds on numbers and numeric strings,
raises (modelled as `.error ()`) on non-numeric strings and on null. -/
def pyInt : JVal → Except Unit Int
  | .jnum n => .ok n
  | .jstr s =>
    match parsePyInt s with
    | some n => .ok n
    | none => .error ()
  | .jnull => .error ()

/-- ASCII lowering of one character (Python `str.lower` on the ASCII
status strings the handler compares against). -/
def lowerChar (c : Char) : Char :=
  if 'A' ≤ c && c ≤ 'Z' then Char.ofNat (c.toNat + 32) else c

/-- Python `s.lower()` (ASCII model). -/
def pyLower (s : String) : String := String.mk (s.toList.map lowerChar)

/-- Auxiliary scan for the substring test. -/
def containsSubAux (needle : List Char) : List Char → Bool
  | [] => needle.isEmpty
  | c :: cs => needle.isPrefixOf (c :: cs) || containsSubAux needle cs

/-- Python `needle in hay` on strings: case-sensitive substring test. -/
def containsSub (needle hay : String) : Bool := containsSubAux needle.toList hay.toList

/-! ## Selector (`tamilmv_scraper.py`) -/

/-- One scraped torrent candidate as built by `get_torrent_links`:
quality/source label, magnet URI, and size in gigabytes. -/
structure Torrent where
  title : String
  magnet : String
  size_gb : ℚ
deriving DecidableEq

/-- One tier of the selection policy (quality tag, inclusive size range,
optional required keywords). -/
structure SelTier where
  quality : String
  min_size_gb : ℚ
  max_size_gb : ℚ
  require_keywords : List String

/-- The whole selection policy, mirroring `SELECTION_RULES` in `config.py`. -/
structure SelectionRules where
  optimal : SelTier
  fallback_1080p : SelTier
  fallback_720p : SelTier
  blacklist : List String
  prefer : List String

/-- `SELECTION_RULES` from `automation/config.py`. -/
def SELECTION_RULES : SelectionRules :=
  { optimal := ⟨"1080p", 1, 3, []⟩
    fallback_1080p := ⟨"1080p", mkRat 1 2, 15, []⟩
    fallback_720p := ⟨"720p", 1, 5, ["HQ"]⟩
    blacklist := ["CAM", "TC", "Telesync", "480p", "4K", "2160p", "HDCAM"]
    prefer := ["WEB-DL", "BluRay", "HQ.HDRip", "WEBRip"] }

/-- Python `min(t :: ts, key=size_gb)`: fold keeping the current minimum and
replacing it only on a strictly smaller size, so the first minimum wins. -/
def pyMinSizeFold (t : Torrent) (ts : List Torrent) : Torrent :=
  ts.foldl (fun acc x => if x.size_gb < acc.size_gb then x else acc) t

/-- Python `min(l, key=size_gb)` guarded by emptiness. -/
def pyMinBySize : List Torrent → Option Torrent
  | [] => none
  | t :: ts => some (pyMinSizeFold t ts)

/-- The blacklist filter of `select_best_torrent`: keep candidates whose
title contains no blacklisted keyword. -/
def validTorrents (rules : SelectionRules) (ts : List Torrent) : List Torrent :=
  ts.filter (fun t => !(rules.blacklist.any (fun kw => containsSub kw t.title)))

/-- Tier-1 filter of `select_best_torrent`: 1080p title within the optimal
size range. -/
def optimalFiles (rules : SelectionRules) (valid : List Torrent) : List Torrent :=
  valid.filter (fun t =>
    containsSub "1080p" t.title
      && decide (rules.optimal.min_size_gb ≤ t.size_gb)
      && decide (t.size_gb ≤ rules.optimal.max_size_gb))

/-- Tier-2 filter of `select_best_torrent`: 1080p title within the fallback
size range. -/
def fallback1080Files (rules : SelectionRules) (valid : List Torrent) : List Torrent :=
  valid.filter (fun t =>
    containsSub "1080p" t.title
      && decide (rules.fallback_1080p.min_size_gb ≤ t.size_gb)
      && decide (t.size_gb ≤ rules.fallback_1080p.max_size_gb))

/-- Tier-3 filter of `select_best_torrent`: 720p HQ title within the last
resort size range. -/
def fallback720Files (rules : SelectionRules) (valid : List Torrent) : List Torrent :=
  valid.filter (fun t =>
    containsSub "720p" t.title
      && containsSub "HQ" t.title
      && decide (rules.fallback_720p.min_size_gb ≤ t.size_gb)
      && decide (t.size_gb ≤ rules.fallback_720p.max_size_gb))

/-- `TamilMVScraper.select_best_torrent`: drop blacklisted candidates, then
take the smallest candidate of the first non-empty tier. -/
def select_best_torrent (rules : SelectionRules) (torrents : List Torrent) : Option Torrent :=
  if torrents.isEmpty then none
  else
    let valid := validTorrents rules torrents
    if valid.isEmpty then none
    else
      match pyMinBySize (optimalFiles rules valid) with
      | some t => some t
      | none =>
        match pyMinBySize (fallback1080Files rules valid) with
        | some t => some t
        | none => pyMinBySize (fallback720Files rules valid)

/-! ## Size parsing (`TamilMVScraper._extract_size`) -/

/-- Rational value of the matched number `d1[.d2]`. -/
def qOfDigits (d1 d2 : List Char) : ℚ :=
  (digitsToNat d1 : ℚ) + (digitsToNat d2 : ℚ) / ((10 : ℚ) ^ d2.length)

/-- Case-insensitive test for the GB unit. -/
def isGBUnit (c1 c2 : Char) : Bool := (c1 = 'G' || c1 = 'g') && (c2 = 'B' || c2 = 'b')

/-- Case-insensitive test for the MB unit. -/
def isMBUnit (c1 c2 : Char) : Bool := (c1 = 'M' || c1 = 'm') && (c2 = 'B' || c2 = 'b')

/-- Try to match the pattern digits, optional dot and digits, optional
whitespace, then GB or MB (any case), at exactly this position.  Returns the
size normalised to gigabytes. -/
def matchSizeAt (l : List Char) : Option ℚ :=
  let d1 := l.takeWhile Char.isDigit
  let r1 := l.dropWhile Char.isDigit
  if d1.isEmpty then none
  else
    let p : List Char × List Char :=
      match r1 with
      | '.' :: r => (r.takeWhile Char.isDigit, r.dropWhile Char.isDigit)
      | _ => ([], r1)
    let r3 := p.2.dropWhile Char.isWhitespace
    match r3 with
    | c1 :: c2 :: _ =>
      if isGBUnit c1 c2 then some (qOfDigits d1 p.1)
      else if isMBUnit c1 c2 then some (qOfDigits d1 p.1 / 1024)
      else none
    | _ => none

/-- Leftmost match of the size pattern (`re.search` scans positions left to
right and stops at the first position where the pattern matches). -/
def findSize : List Char → Option ℚ
  | [] => none
  | c :: cs =>
    match matchSizeAt (c :: cs) with
    | some v => some v
    | none => findSize cs

/-- Round half to even of a rational (Python `round` tie behaviour). -/
def roundHalfEven (q : ℚ) : ℤ :=
  if q - q.floor < 1/2 then q.floor
  else if q - q.floor > 1/2 then q.floor + 1
  else if q.floor % 2 = 0 then q.floor else q.floor + 1

/-- Python `round(x, 2)` modelled on rationals. -/
def round2 (q : ℚ) : ℚ := ((roundHalfEven (q * 100) : ℚ)) / 100

/-- `TamilMVScraper._extract_size`: parse a size in GB/MB from free text,
normalise to gigabytes, round to two decimals; return 0.0 when no size
pattern is present. -/
def extract_size (text : String) : ℚ :=
  match findSize text.toList with
  | none => 0
  | some v => round2 v

/-! ## Remote Fetcher (`seedr_handler.py`) -/

/-- The fields of one transfer-status JSON response that
`wait_for_download` reads. -/
structure TransferInfo where
  status : Option String
  state : Option String
  folder_id : JVal
  folder : JVal
deriving DecidableEq

/-- The normalised status string:
`str(info.get("status") or info.get("state") or "").lower()`. -/
def normStatus (i : TransferInfo) : String :=
  pyLower ((pyOrS i.status (pyOrS i.state none)).getD "")

/-- Status synonyms recognised as success by `wait_for_download`. -/
def successStatuses : List String := ["finished", "seeding", "done", "complete"]

/-- Status synonyms recognised as failure by `wait_for_download`. -/
def failureStatuses : List String := ["error", "failed"]

/-- The folder handle read from a status response:
`info.get("folder_id") or info.get("folder") or None`. -/
def folderVal (i : TransferInfo) : JVal := pyOr i.folder_id (pyOr i.folder JVal.jnull)

/-- One polling loop of `wait_for_download`, with the remaining loop
iterations as fuel.  `polls i` is the response of the i-th
`get_transfer_info` call (`none` models a failed fetch).  Returns the loop
result (an exception if `int(folder_id)` raises) and the number of polls
performed. -/
def waitPoll (polls : Nat → Option TransferInfo) (idx : Nat) :
    Nat → (Except Unit (Bool × Option Int)) × Nat
  | 0 => (.ok (false, none), 0)
  | fuel + 1 =>
    match polls idx with
    | none =>
      let r := waitPoll polls (idx + 1) fuel
      (r.1, r.2 + 1)
    | some info =>
      let st := normStatus info
      if successStatuses.contains st then
        let fv := folderVal info
        (if truthyJ fv then (pyInt fv).map (fun n => (true, some n)) else .ok (true, none), 1)
      else if failureStatuses.contains st then (.ok (false, none), 1)
      else
        let r := waitPoll polls (idx + 1) fuel
        (r.1, r.2 + 1)

/-- `SeedrHandler.wait_for_download`: poll at a fixed interval for at most
`max_wait_minutes * 60 / poll_seconds` iterations (Python
`int(max_wait_minutes * 60 / poll_seconds)`, which truncates). -/
def wait_for_download (polls : Nat → Option TransferInfo)
    (max_wait_minutes poll_seconds : Nat) :
    (Except Unit (Bool × Option Int)) × Nat :=
  waitPoll polls 0 (max_wait_minutes * 60 / poll_seconds)

/-- One file entry of a folder listing, with the fields
`get_largest_file` and `process_one_movie` read. -/
structure FileEntry where
  idField : JVal
  file_id : JVal
  size : Int
  name : String
deriving DecidableEq

/-- A folder listing response. -/
structure FolderData where
  files : List FileEntry
deriving DecidableEq

/-- Python `max(f :: fs, key=size)`: fold keeping the current maximum and
replacing it only on a strictly larger size, so the first maximum wins. -/
def pyMaxSizeFold (f : FileEntry) (fs : List FileEntry) : FileEntry :=
  fs.foldl (fun acc x => if x.size > acc.size then x else acc) f

/-- Environment for one run of the Seedr pipeline: the outcome of each
remote call. `folders fid` is the `list_folder` response, where `fid = none`
lists the account's root folder (GET /rest/folder). -/
structure SeedrEnv where
  addMagnet : String → Option Int
  polls : Nat → Option TransferInfo
  folders : Option Int → Option FolderData
  directLink : Int → Option String

/-- `SeedrHandler.get_largest_file`: list the folder (root when the handle
is `none`) and pick the largest file. -/
def get_largest_file (env : SeedrEnv) (fid : Option Int) : Option FileEntry :=
  match env.folders fid with
  | none => none
  | some d =>
    match d.files with
    | [] => none
    | f :: fs => some (pyMaxSizeFold f fs)

/-- Observable remote side effects of `process_one_movie` beyond the polls:
folder listings, direct-link requests, and `delete_transfer_data`
invocations. -/
inductive SEvent where
  | listFolder : Option Int → SEvent
  | getLink : Int → SEvent
  | deleteData : Int → Option Int → SEvent
deriving DecidableEq

/-- Test for a `delete_transfer_data` invocation event. -/
def isDeleteEv : SEvent → Bool
  | .deleteData _ _ => true
  | _ => false

/-- Number of `delete_transfer_data` invocations in a trace. -/
def deleteCount (evs : List SEvent) : Nat := (evs.filter isDeleteEv).length

/-- The file identifier read from the chosen file:
`movie_file.get("id") or movie_file.get("file_id")`. -/
def fileIdVal (f : FileEntry) : JVal := pyOr f.idField (pyOr f.file_id JVal.jnull)

/-- `SeedrHandler.process_one_movie`: add the magnet, wait for the download,
pick the largest file, get its direct link, and delete the Seedr data.
Returns the result (`.error ()` when an uncaught `int()` conversion raises)
together with the trace of remote side effects. -/
def process_one_movie (env : SeedrEnv) (magnet : String) :
    Except Unit (Option String) × List SEvent :=
  match env.addMagnet magnet with
  | none => (.ok none, [])
  | some tid =>
    if tid = 0 then (.ok none, [])
    else
      match (wait_for_download env.polls 60 30).1 with
      | .error e => (.error e, [])
      | .ok (false, _) => (.ok none, [])
      | .ok (true, fid) =>
        match get_largest_file env fid with
        | none => (.ok none, [.listFolder fid, .deleteData tid fid])
        | some mf =>
          let fv := fileIdVal mf
          if truthyJ fv then
            match pyInt fv with
            | .error e => (.error e, [.listFolder fid])
            | .ok n =>
              (.ok (env.directLink n), [.listFolder fid, .getLink n, .deleteData tid fid])
          else (.ok none, [.listFolder fid, .deleteData tid fid])

/-! ## Distributor (`ppd_uploader.py`) -/

/-- String truthiness for configuration values. -/
def strT (s : String) : Bool := s != ""

/-- Strip trailing slashes, as `__init__` does with `rstrip("/")`. -/
def rstripSlash (s : String) : String :=
  String.mk ((s.toList.reverse.dropWhile (fun c => c = '/')).reverse)

/-- The uploader configuration after `PPDUploader.__init__` (bases already
slash-stripped, missing env values as empty strings). -/
structure PPDConfig where
  lulu_base : String
  lulu_key : String
  dg_base : String
  dg_key : String
  generic_base : String
  generic_key : String

/-- `PPDUploader.__init__` from raw configuration values. -/
def mkPPDConfig (lulu_base lulu_key dg_base dg_key generic_base generic_key : String) :
    PPDConfig :=
  { lulu_base := rstripSlash lulu_base
    lulu_key := lulu_key
    dg_base := rstripSlash dg_base
    dg_key := dg_key
    generic_base := rstripSlash generic_base
    generic_key := generic_key }

/-- The fields of a LuluStream remote-upload JSON response that
`_upload_to_lulu` reads.  `error_flag` is the truthiness of
`data.get("error")`. -/
structure LuluResp where
  error_flag : Bool
  file_id : Option String
  idf : Option String
  code : Option String
  watch_url : Option String
  stream_url : Option String
  url : Option String
deriving DecidableEq

/-- The fields of a DropGalaxy remote-upload JSON response that
`_upload_to_dg` reads. -/
structure DGResp where
  error_flag : Bool
  file_id : Option String
  idf : Option String
  code : Option String
  download_url : Option String
  url : Option String
deriving DecidableEq

/-- The fields of a generic-PPD remote-upload JSON response that
`_upload_generic_ppd` reads. -/
structure GenResp where
  success : Bool
  file_id : Option String
deriving DecidableEq

/-- The flexible file-id parse of `_upload_to_lulu`:
`data.get("file_id") or data.get("id") or data.get("code")`. -/
def luluFileId (d : LuluResp) : Option String := pyOrS d.file_id (pyOrS d.idf d.code)

/-- The flexible watch-URL parse of `_upload_to_lulu`, with a constructed
`/watch/` URL as the last resort. -/
def luluWatchUrl (base : String) (d : LuluResp) : Option String :=
  pyOrS d.watch_url (pyOrS d.stream_url (pyOrS d.url
    (if sTruthy (luluFileId d) then some (base ++ "/watch/" ++ (luluFileId d).getD "")
     else none)))

/-- `PPDUploader._upload_to_lulu` response handling: `none` models an HTTP
failure, a non-200 status or a raised exception; on a response, flexible
field parsing of the file id and the watch URL. -/
def upload_to_lulu (base : String) (resp : Option LuluResp) : Option (String × Option String) :=
  match resp with
  | none => none
  | some d =>
    if d.error_flag then none
    else if sTruthy (luluWatchUrl base d) then
      some ((luluWatchUrl base d).getD "", luluFileId d)
    else none

/-- The flexible file-id parse of `_upload_to_dg`. -/
def dgFileId (d : DGResp) : Option String := pyOrS d.file_id (pyOrS d.idf d.code)

/-- The flexible download-URL parse of `_upload_to_dg`, with a constructed
`/download/` URL as the last resort. -/
def dgDownloadUrl (base : String) (d : DGResp) : Option String :=
  pyOrS d.download_url (pyOrS d.url
    (if sTruthy (dgFileId d) then some (base ++ "/download/" ++ (dgFileId d).getD "")
     else none))

/-- `PPDUploader._upload_to_dg` response handling, analogous to the Lulu
adapter. -/
def upload_to_dg (base : String) (resp : Option DGResp) : Option (String × Option String) :=
  match resp with
  | none => none
  | some d =>
    if d.error_flag then none
    else if sTruthy (dgDownloadUrl base d) then
      some ((dgDownloadUrl base d).getD "", dgFileId d)
    else none

/-- `PPDUploader._upload_generic_ppd` response handling: on a response whose
`success` field is truthy, the download URL is constructed from the base and
the file id (Python `f"{base}/download/{file_id}"`, which prints a missing
id as "None"). -/
def upload_generic_ppd (base : String) (resp : Option GenResp) : Option (String × Option String) :=
  match resp with
  | none => none
  | some d =>
    if d.success then some (base ++ "/download/" ++ d.file_id.getD "None", d.file_id)
    else none

/-- The result dictionary of `PPDUploader.remote_upload`. -/
structure UploadResult where
  watch_url : Option String
  download_url : Option String
  lulu_id : Option String
  dg_id : Option String
deriving DecidableEq

/-- The guarded Lulu adapter call of `remote_upload`: invoked only when the
Lulu base and key are configured (truthy). -/
def luluOut (cfg : PPDConfig) (luluResp : Option LuluResp) : Option (String × Option String) :=
  if strT cfg.lulu_base && strT cfg.lulu_key then upload_to_lulu cfg.lulu_base luluResp
  else none

/-- The guarded DG adapter call of `remote_upload`: invoked only when the DG
base is configured. -/
def dgOut (cfg : PPDConfig) (dgResp : Option DGResp) : Option (String × Option String) :=
  if strT cfg.dg_base then upload_to_dg cfg.dg_base dgResp else none

/-- The download URL after the generic fallback step of `remote_upload`: the
fallback runs only when the DG step produced no truthy URL and the generic
host is configured, and replaces the download URL only when it succeeds. -/
def finalDownloadUrl (cfg : PPDConfig) (dgResp : Option DGResp)
    (genResp : Option GenResp) : Option String :=
  if !sTruthy ((dgOut cfg dgResp).map Prod.fst) && strT cfg.generic_base
      && strT cfg.generic_key then
    match upload_generic_ppd cfg.generic_base genResp with
    | some g => some g.1
    | none => (dgOut cfg dgResp).map Prod.fst
  else (dgOut cfg dgResp).map Prod.fst

/-- `PPDUploader.remote_upload`: try the Lulu adapter when configured, the
DG adapter when configured, then the generic fallback when the download URL
is still empty and the fallback is configured; succeed when either URL was
obtained. -/
def remote_upload (cfg : PPDConfig) (luluResp : Option LuluResp)
    (dgResp : Option DGResp) (genResp : Option GenResp) : Option UploadResult :=
  if sTruthy ((luluOut cfg luluResp).map Prod.fst)
      || sTruthy (finalDownloadUrl cfg dgResp genResp) then
    some ⟨(luluOut cfg luluResp).map Prod.fst, finalDownloadUrl cfg dgResp genResp,
          ((luluOut cfg luluResp).map Prod.snd).getD none,
          ((dgOut cfg dgResp).map Prod.snd).getD none⟩
  else none

/-! ## Catalog store (`movie_processor.py`, `_save_to_database`) -/

/-- The MediaRecord document written by `_save_to_database` (the fields that
vary between submissions; the constant fields of the Python dict are
omitted from the key and carried verbatim). -/
structure MovieDoc where
  title : String
  year : Option Int
  watch_url : String
  download_url : String
  poster_path : Option String
  description : String
  rating : Option ℚ
deriving DecidableEq

/-- The filter `{"title": title, "year": year}` of the `update_one` call. -/
def keyMatches (t : String) (y : Option Int) (d : MovieDoc) : Bool :=
  d.title == t && d.year == y

/-- Replace the first element satisfying the predicate. -/
def updateFirst (p : MovieDoc → Bool) (doc : MovieDoc) : List MovieDoc → List MovieDoc
  | [] => []
  | x :: xs => if p x then doc :: xs else x :: updateFirst p doc xs

/-- MongoDB `update_one({"title": t, "year": y}, {"$set": doc}, upsert=True)`
as called by `_save_to_database`: set the fields of the first document
matching the key, or insert the document when no match exists.  Since the
`$set` document carries every field (including the key fields, equal to the
filter values on a match), a matched document becomes `doc`. -/
def upsertMovie (store : List MovieDoc) (doc : MovieDoc) : List MovieDoc :=
  if store.any (keyMatches doc.title doc.year) then
    updateFirst (keyMatches doc.title doc.year) doc store
  else store ++ [doc]

/-- Number of documents in the store matching a (title, year) key. -/
def countKey (store : List MovieDoc) (t : String) (y : Option Int) : Nat :=
  (store.filter (keyMatches t y)).length

/-! ## Batch scan (`movie_processor.py`, `auto_scan_tamilmv`) -/

/-- One scraped forum topic as produced by `get_latest_movies`. -/
structure ScrapedMovie where
  title : String
  year : Option Int
  topic_url : String

/-- Environment for one batch scan: the database existence check, the
torrent listing per topic, and the outcome of `process_single_movie` per
magnet. -/
structure ScanEnv where
  existsInDb : String → Option Int → Bool
  torrentsFor : String → List Torrent
  processSuccess : String → Bool

/-- Observable per-item events of the batch loop.  `pause n` is the
`await asyncio.sleep(n)` at the end of a loop iteration. -/
inductive BatchEv where
  | skippedExisting : String → BatchEv
  | noTorrents : String → BatchEv
  | noCandidate : String → BatchEv
  | processed : String → Bool → BatchEv
  | pause : Nat → BatchEv
deriving DecidableEq

/-- One iteration of the `auto_scan_tamilmv` loop over one scraped movie:
skip when already catalogued, when no torrents are found, or when the
Selector returns nothing (each of these reaches `continue`, which jumps
past the sleep); otherwise process the item and then pause 5 seconds. -/
def scanStep (env : ScanEnv) (m : ScrapedMovie) : List BatchEv :=
  if env.existsInDb m.title m.year then [.skippedExisting m.title]
  else
    let ts := env.torrentsFor m.topic_url
    if ts.isEmpty then [.noTorrents m.title]
    else
      match select_best_torrent SELECTION_RULES ts with
      | none => [.noCandidate m.title]
      | some best => [.processed m.title (env.processSuccess best.magnet), .pause 5]

/-- `MovieProcessor.auto_scan_tamilmv` over an already-scraped movie list:
the items are handled one after another by a sequential `for` loop, each
iteration awaited to completion before the next begins. -/
def auto_scan_tamilmv (env : ScanEnv) (movies : List ScrapedMovie) : List BatchEv :=
  movies.flatMap (scanStep env)

/-! ## Selector lemmas -/

theorem pyMinSizeFold_mem (t : Torrent) (ts : List Torrent) :
    pyMinSizeFold t ts ∈ t :: ts := by
  induction ts generalizing t with
  | nil => simp [pyMinSizeFold]
  | cons x xs ih =>
    have h : pyMinSizeFold t (x :: xs)
        = pyMinSizeFold (if x.size_gb < t.size_gb then x else t) xs := rfl
    rw [h]
    rcases List.mem_cons.1 (ih (if x.size_gb < t.size_gb then x else t)) with h1 | h1
    · rw [h1]
      by_cases hx : x.size_gb < t.size_gb
      · simp [hx]
      · simp [hx]
    · exact List.mem_cons_of_mem _ (List.mem_cons_of_mem _ h1)

theorem pyMinSizeFold_le (t : Torrent) (ts : List Torrent) :
    ∀ u ∈ t :: ts, (pyMinSizeFold t ts).size_gb ≤ u.size_gb := by
  induction ts generalizing t with
  | nil =>
    intro u hu
    rcases List.mem_cons.1 hu with h | h
    · rw [h]
      exact le_of_eq rfl
    · simp at h
  | cons x xs ih =>
    intro u hu
    have h : pyMinSizeFold t (x :: xs)
        = pyMinSizeFold (if x.size_gb < t.size_gb then x else t) xs := rfl
    rw [h]
    have hself : (pyMinSizeFold (if x.size_gb < t.size_gb then x else t) xs).size_gb
        ≤ (if x.size_gb < t.size_gb then x else t).size_gb :=
      ih _ _ (List.mem_cons_self _ _)
    have hle_t : (if x.size_gb < t.size_gb then x else t).size_gb ≤ t.size_gb := by
      by_cases hx : x.size_gb < t.size_gb
      · simp [hx]; exact le_of_lt hx
      · simp [hx]
    have hle_x : (if x.size_gb < t.size_gb then x else t).size_gb ≤ x.size_gb := by
      by_cases hx : x.size_gb < t.size_gb
      · simp [hx]
      · simp [hx]; exact le_of_not_lt hx
    rcases List.mem_cons.1 hu with h1 | h1
    · rw [h1]; exact le_trans hself hle_t
    · rcases List.mem_cons.1 h1 with h2 | h2
      · rw [h2]; exact le_trans hself hle_x
      · exact ih _ u (List.mem_cons_of_mem _ h2)

theorem pyMinBySize_mem {l : List Torrent} {t : Torrent}
    (h : pyMinBySize l = some t) : t ∈ l := by
  cases l with
  | nil => simp [pyMinBySize] at h
  | cons a as =>
    simp only [pyMinBySize, Option.some.injEq] at h
    exact h ▸ pyMinSizeFold_mem a as

theorem pyMinBySize_le {l : List Torrent} {t : Torrent}
    (h : pyMinBySize l = some t) : ∀ u ∈ l, t.size_gb ≤ u.size_gb := by
  cases l with
  | nil => simp [pyMinBySize] at h
  | cons a as =>
    simp only [pyMinBySize, Option.some.injEq] at h
    exact h ▸ pyMinSizeFold_le a as

theorem pyMinBySize_eq_none {l : List Torrent} : pyMinBySize l = none ↔ l = [] := by
  cases l <;> simp [pyMinBySize]

theorem select_best_torrent_tiers {rules : SelectionRules} {ts : List Torrent} {t : Torrent}
    (h : select_best_torrent rules ts = some t) :
    pyMinBySize (optimalFiles rules (validTorrents rules ts)) = some t
    ∨ (optimalFiles rules (validTorrents rules ts) = []
        ∧ pyMinBySize (fallback1080Files rules (validTorrents rules ts)) = some t)
    ∨ (optimalFiles rules (validTorrents rules ts) = []
        ∧ fallback1080Files rules (validTorrents rules ts) = []
        ∧ pyMinBySize (fallback720Files rules (validTorrents rules ts)) = some t) := by
  by_cases h0 : ts.isEmpty
  · simp [select_best_torrent, h0] at h
  · by_cases h1 : (validTorrents rules ts).isEmpty
    · simp [select_best_torrent, h0, h1] at h
    · rcases ho : pyMinBySize (optimalFiles rules (validTorrents rules ts)) with _ | t1
      · rcases hf : pyMinBySize (fallback1080Files rules (validTorrents rules ts)) with _ | t2
        · refine Or.inr (Or.inr ⟨pyMinBySize_eq_none.1 ho, pyMinBySize_eq_none.1 hf, ?_⟩)
          simpa [select_best_torrent, h0, h1, ho, hf] using h
        · refine Or.inr (Or.inl ⟨pyMinBySize_eq_none.1 ho, ?_⟩)
          simpa [select_best_torrent, h0, h1, ho, hf] using h
      · refine Or.inl ?_
        simpa [select_best_torrent, h0, h1, ho] using h

theorem mem_validTorrents {rules : SelectionRules} {ts : List Torrent} {t : Torrent}
    (h : t ∈ validTorrents rules ts) :
    ∀ kw ∈ rules.blacklist, containsSub kw t.title = false := by
  rcases List.mem_filter.1 h with ⟨-, hb⟩
  intro kw hkw
  simp only [Bool.not_eq_true', List.any_eq_false] at hb
  simpa using hb kw hkw

theorem mem_optimalFiles {rules : SelectionRules} {l : List Torrent} {t : Torrent}
    (h : t ∈ optimalFiles rules l) :
    t ∈ l ∧ containsSub "1080p" t.title = true
      ∧ rules.optimal.min_size_gb ≤ t.size_gb ∧ t.size_gb ≤ rules.optimal.max_size_gb := by
  rcases List.mem_filter.1 h with ⟨hm, hp⟩
  simp only [Bool.and_eq_true, decide_eq_true_eq] at hp
  exact ⟨hm, hp.1.1, hp.1.2, hp.2⟩

theorem mem_fallback1080Files {rules : SelectionRules} {l : List Torrent} {t : Torrent}
    (h : t ∈ fallback1080Files rules l) :
    t ∈ l ∧ containsSub "1080p" t.title = true
      ∧ rules.fallback_1080p.min_size_gb ≤ t.size_gb
      ∧ t.size_gb ≤ rules.fallback_1080p.max_size_gb := by
  rcases List.mem_filter.1 h with ⟨hm, hp⟩
  simp only [Bool.and_eq_true, decide_eq_true_eq] at hp
  exact ⟨hm, hp.1.1, hp.1.2, hp.2⟩

theorem mem_fallback720Files {rules : SelectionRules} {l : List Torrent} {t : Torrent}
    (h : t ∈ fallback720Files rules l) :
    t ∈ l ∧ containsSub "720p" t.title = true ∧ containsSub "HQ" t.title = true
      ∧ rules.fallback_720p.min_size_gb ≤ t.size_gb
      ∧ t.size_gb ≤ rules.fallback_720p.max_size_gb := by
  rcases List.mem_filter.1 h with ⟨hm, hp⟩
  simp only [Bool.and_eq_true, decide_eq_true_eq] at hp
  exact ⟨hm, hp.1.1.1, hp.1.1.2, hp.1.2, hp.2⟩

/-- A returned candidate label contains no blacklisted keyword. -/
def noBlacklisted (rules : SelectionRules) (t : Torrent) : Prop :=
  ∀ kw ∈ rules.blacklist, containsSub kw t.title = false

/-- Constraints of the optimal tier. -/
def inOptimalTier (rules : SelectionRules) (t : Torrent) : Prop :=
  containsSub "1080p" t.title = true
    ∧ rules.optimal.min_size_gb ≤ t.size_gb ∧ t.size_gb ≤ rules.optimal.max_size_gb

/-- Constraints of the 1080p fallback tier. -/
def inFallback1080Tier (rules : SelectionRules) (t : Torrent) : Prop :=
  containsSub "1080p" t.title = true
    ∧ rules.fallback_1080p.min_size_gb ≤ t.size_gb
    ∧ t.size_gb ≤ rules.fallback_1080p.max_size_gb

/-- Constraints of the 720p last-resort tier, including the required "HQ"
keyword. -/
def inFallback720Tier (rules : SelectionRules) (t : Torrent) : Prop :=
  containsSub "720p" t.title = true ∧ containsSub "HQ" t.title = true
    ∧ rules.fallback_720p.min_size_gb ≤ t.size_gb
    ∧ t.size_gb ≤ rules.fallback_720p.max_size_gb

/-- C3: whenever the Selector returns a candidate, its label contains no
blacklisted keyword and it satisfies the quality-tag, size-range and (for
the 720p tier) required-keyword constraints of one of the tiers; and on the
concrete candidate set [("WEB-DL 1080p", 2.2 GB), ("BluRay 1080p", 6 GB),
("HDCAM 1080p", 1 GB)] with the configured rules it returns the WEB-DL
2.2 GB item. -/
theorem c3_selector_respects_policy :
    (∀ (rules : SelectionRules) (ts : List Torrent) (t : Torrent),
        select_best_torrent rules ts = some t →
        noBlacklisted rules t
          ∧ (inOptimalTier rules t ∨ inFallback1080Tier rules t ∨ inFallback720Tier rules t))
    ∧ select_best_torrent SELECTION_RULES
        [⟨"WEB-DL 1080p", "magnet:A", mkRat 11 5⟩, ⟨"BluRay 1080p", "magnet:B", 6⟩,
         ⟨"HDCAM 1080p", "magnet:C", 1⟩]
      = some ⟨"WEB-DL 1080p", "magnet:A", mkRat 11 5⟩ := by
  constructor
  · intro rules ts t h
    rcases select_best_torrent_tiers h with hc | ⟨_, hc⟩ | ⟨_, _, hc⟩
    · rcases mem_optimalFiles (pyMinBySize_mem hc) with ⟨hv, h1, h2, h3⟩
      exact ⟨mem_validTorrents hv, Or.inl ⟨h1, h2, h3⟩⟩
    · rcases mem_fallback1080Files (pyMinBySize_mem hc) with ⟨hv, h1, h2, h3⟩
      exact ⟨mem_validTorrents hv, Or.inr (Or.inl ⟨h1, h2, h3⟩)⟩
    · rcases mem_fallback720Files (pyMinBySize_mem hc) with ⟨hv, h1, h2, h3, h4⟩
      exact ⟨mem_validTorrents hv, Or.inr (Or.inr ⟨h1, h2, h3, h4⟩)⟩
  · decide

/-- Witness for C3 at the concrete candidate set of the claim. -/
theorem c3_selector_respects_policy_witness :
    noBlacklisted SELECTION_RULES ⟨"WEB-DL 1080p", "magnet:A", mkRat 11 5⟩
      ∧ (inOptimalTier SELECTION_RULES ⟨"WEB-DL 1080p", "magnet:A", mkRat 11 5⟩
          ∨ inFallback1080Tier SELECTION_RULES ⟨"WEB-DL 1080p", "magnet:A", mkRat 11 5⟩
          ∨ inFallback720Tier SELECTION_RULES ⟨"WEB-DL 1080p", "magnet:A", mkRat 11 5⟩) :=
  c3_selector_respects_policy.1 SELECTION_RULES
    [⟨"WEB-DL 1080p", "magnet:A", mkRat 11 5⟩, ⟨"BluRay 1080p", "magnet:B", 6⟩,
     ⟨"HDCAM 1080p", "magnet:C", 1⟩]
    ⟨"WEB-DL 1080p", "magnet:A", mkRat 11 5⟩ (by decide)

/-- C6: the Selector returns the smallest-size candidate of the first
non-empty tier, and it is deterministic: identical input lists give
identical results. -/
theorem c6_smallest_of_first_tier :
    (∀ (rules : SelectionRules) (ts : List Torrent) (t : Torrent),
        select_best_torrent rules ts = some t →
        ((optimalFiles rules (validTorrents rules ts) ≠ []
            ∧ t ∈ optimalFiles rules (validTorrents rules ts)
            ∧ ∀ u ∈ optimalFiles rules (validTorrents rules ts), t.size_gb ≤ u.size_gb)
          ∨ (optimalFiles rules (validTorrents rules ts) = []
              ∧ fallback1080Files rules (validTorrents rules ts) ≠ []
              ∧ t ∈ fallback1080Files rules (validTorrents rules ts)
              ∧ ∀ u ∈ fallback1080Files rules (validTorrents rules ts), t.size_gb ≤ u.size_gb)
          ∨ (optimalFiles rules (validTorrents rules ts) = []
              ∧ fallback1080Files rules (validTorrents rules ts) = []
              ∧ t ∈ fallback720Files rules (validTorrents rules ts)
              ∧ ∀ u ∈ fallback720Files rules (validTorrents rules ts), t.size_gb ≤ u.size_gb)))
    ∧ ∀ (rules : SelectionRules) (ts₁ ts₂ : List Torrent), ts₁ = ts₂ →
        select_best_torrent rules ts₁ = select_best_torrent rules ts₂ := by
  constructor
  · intro rules ts t h
    rcases select_best_torrent_tiers h with hc | ⟨he, hc⟩ | ⟨he, he2, hc⟩
    · refine Or.inl ⟨?_, pyMinBySize_mem hc, pyMinBySize_le hc⟩
      intro hnil
      rw [hnil] at hc
      simp [pyMinBySize] at hc
    · refine Or.inr (Or.inl ⟨he, ?_, pyMinBySize_mem hc, pyMinBySize_le hc⟩)
      intro hnil
      rw [hnil] at hc
      simp [pyMinBySize] at hc
    · exact Or.inr (Or.inr ⟨he, he2, pyMinBySize_mem hc, pyMinBySize_le hc⟩)
  · intro rules ts₁ ts₂ h
    rw [h]

/-- Witness for C6: a first tier holding two candidates, where the smaller
(1.5 GB) one is returned. -/
theorem c6_smallest_of_first_tier_witness :
    (optimalFiles SELECTION_RULES (validTorrents SELECTION_RULES
        [⟨"WEB-DL 1080p", "mA", mkRat 11 5⟩, ⟨"WEBRip 1080p", "mB", mkRat 3 2⟩]) ≠ []
      ∧ ⟨"WEBRip 1080p", "mB", mkRat 3 2⟩ ∈ optimalFiles SELECTION_RULES (validTorrents SELECTION_RULES
          [⟨"WEB-DL 1080p", "mA", mkRat 11 5⟩, ⟨"WEBRip 1080p", "mB", mkRat 3 2⟩])
      ∧ ∀ u ∈ optimalFiles SELECTION_RULES (validTorrents SELECTION_RULES
          [⟨"WEB-DL 1080p", "mA", mkRat 11 5⟩, ⟨"WEBRip 1080p", "mB", mkRat 3 2⟩]),
          (Torrent.mk "WEBRip 1080p" "mB" (mkRat 3 2)).size_gb ≤ u.size_gb)
    ∨ (optimalFiles SELECTION_RULES (validTorrents SELECTION_RULES
          [⟨"WEB-DL 1080p", "mA", mkRat 11 5⟩, ⟨"WEBRip 1080p", "mB", mkRat 3 2⟩]) = []
        ∧ fallback1080Files SELECTION_RULES (validTorrents SELECTION_RULES
            [⟨"WEB-DL 1080p", "mA", mkRat 11 5⟩, ⟨"WEBRip 1080p", "mB", mkRat 3 2⟩]) ≠ []
        ∧ ⟨"WEBRip 1080p", "mB", mkRat 3 2⟩ ∈ fallback1080Files SELECTION_RULES (validTorrents SELECTION_RULES
            [⟨"WEB-DL 1080p", "mA", mkRat 11 5⟩, ⟨"WEBRip 1080p", "mB", mkRat 3 2⟩])
        ∧ ∀ u ∈ fallback1080Files SELECTION_RULES (validTorrents SELECTION_RULES
            [⟨"WEB-DL 1080p", "mA", mkRat 11 5⟩, ⟨"WEBRip 1080p", "mB", mkRat 3 2⟩]),
            (Torrent.mk "WEBRip 1080p" "mB" (mkRat 3 2)).size_gb ≤ u.size_gb)
    ∨ (optimalFiles SELECTION_RULES (validTorrents SELECTION_RULES
          [⟨"WEB-DL 1080p", "mA", mkRat 11 5⟩, ⟨"WEBRip 1080p", "mB", mkRat 3 2⟩]) = []
        ∧ fallback1080Files SELECTION_RULES (validTorrents SELECTION_RULES
            [⟨"WEB-DL 1080p", "mA", mkRat 11 5⟩, ⟨"WEBRip 1080p", "mB", mkRat 3 2⟩]) = []
        ∧ ⟨"WEBRip 1080p", "mB", mkRat 3 2⟩ ∈ fallback720Files SELECTION_RULES (validTorrents SELECTION_RULES
            [⟨"WEB-DL 1080p", "mA", mkRat 11 5⟩, ⟨"WEBRip 1080p", "mB", mkRat 3 2⟩])
        ∧ ∀ u ∈ fallback720Files SELECTION_RULES (validTorrents SELECTION_RULES
            [⟨"WEB-DL 1080p", "mA", mkRat 11 5⟩, ⟨"WEBRip 1080p", "mB", mkRat 3 2⟩]),
            (Torrent.mk "WEBRip 1080p" "mB" (mkRat 3 2)).size_gb ≤ u.size_gb) :=
  c6_smallest_of_first_tier.1 SELECTION_RULES
    [⟨"WEB-DL 1080p", "mA", mkRat 11 5⟩, ⟨"WEBRip 1080p", "mB", mkRat 3 2⟩]
    ⟨"WEBRip 1080p", "mB", mkRat 3 2⟩ (by decide)

/-- C9: a text with no parsable size yields size 0.0 from the size parser,
and under the configured SELECTION_RULES the Selector never returns a
candidate of size below 0.5 GB, in particular never one of size 0. -/
theorem c9_unparsable_size_self_excludes :
    (∀ text : String, findSize text.toList = none → extract_size text = 0)
    ∧ ∀ (ts : List Torrent) (t : Torrent),
        select_best_torrent SELECTION_RULES ts = some t →
        mkRat 1 2 ≤ t.size_gb ∧ t.size_gb ≠ 0 := by
  constructor
  · intro text h
    unfold extract_size
    rw [h]
  · intro ts t h
    have hhalf : (mkRat 1 2 : ℚ) ≤ 1 := by decide
    have hpos : (0 : ℚ) < mkRat 1 2 := by decide
    have hle : mkRat 1 2 ≤ t.size_gb := by
      rcases select_best_torrent_tiers h with hc | ⟨_, hc⟩ | ⟨_, _, hc⟩
      · rcases mem_optimalFiles (pyMinBySize_mem hc) with ⟨-, -, h2, -⟩
        exact le_trans hhalf h2
      · rcases mem_fallback1080Files (pyMinBySize_mem hc) with ⟨-, -, h2, -⟩
        exact h2
      · rcases mem_fallback720Files (pyMinBySize_mem hc) with ⟨-, -, -, h2, -⟩
        exact le_trans hhalf h2
    exact ⟨hle, (lt_of_lt_of_le hpos hle).ne'⟩

/-- Witness for C9: a concrete unparsable text and a concrete selected
candidate. -/
theorem c9_unparsable_size_self_excludes_witness :
    extract_size "Amaran (2024) Tamil HDRip x264" = 0
      ∧ (mkRat 1 2 ≤ (Torrent.mk "Movie 1080p" "m" 2).size_gb
          ∧ (Torrent.mk "Movie 1080p" "m" 2).size_gb ≠ 0) :=
  ⟨c9_unparsable_size_self_excludes.1 "Amaran (2024) Tamil HDRip x264" (by decide),
   c9_unparsable_size_self_excludes.2 [⟨"Movie 1080p", "m", 2⟩] ⟨"Movie 1080p", "m", 2⟩ (by decide)⟩

/-! ## Remote Fetcher lemmas -/

theorem waitPoll_count_le (polls : Nat → Option TransferInfo) :
    ∀ (fuel idx : Nat), (waitPoll polls idx fuel).2 ≤ fuel := by
  intro fuel
  induction fuel with
  | zero => intro idx; exact le_refl 0
  | succ n ih =>
    intro idx
    show (waitPoll polls idx (n + 1)).2 ≤ n + 1
    unfold waitPoll
    rcases polls idx with _ | info
    · simpa using Nat.add_le_add_right (ih (idx + 1)) 1
    · by_cases hs : normStatus info ∈ successStatuses
      · simp [hs]
      · by_cases hf : normStatus info ∈ failureStatuses
        · simp [hs, hf]
        · have h2 := ih (idx + 1)
          simp [hs, hf]
          omega

/-- A poll outcome that is neither a recognised success nor a recognised
failure (including a missing response). -/
def pollUnrecognized (o : Option TransferInfo) : Prop :=
  ∀ info, o = some info →
    normStatus info ∉ successStatuses ∧ normStatus info ∉ failureStatuses

theorem waitPoll_timeout (polls : Nat → Option TransferInfo) :
    ∀ (fuel idx : Nat), (∀ j, idx ≤ j → j < idx + fuel → pollUnrecognized (polls j)) →
      (waitPoll polls idx fuel).1 = .ok (false, none) := by
  intro fuel
  induction fuel with
  | zero => intro idx _; rfl
  | succ n ih =>
    intro idx hall
    show (waitPoll polls idx (n + 1)).1 = .ok (false, none)
    unfold waitPoll
    rcases hp : polls idx with _ | info
    · have := ih (idx + 1) (fun j h1 h2 => hall j (Nat.le_of_succ_le h1) (by omega))
      simpa using this
    · have hu := hall idx (le_refl idx) (by omega) info hp
      have := ih (idx + 1) (fun j h1 h2 => hall j (Nat.le_of_succ_le h1) (by omega))
      simpa [hu.1, hu.2] using this

theorem waitPoll_no_error (polls : Nat → Option TransferInfo)
    (hnum : ∀ i info, polls i = some info → truthyJ (folderVal info) = true →
      ∃ n, pyInt (folderVal info) = .ok n) :
    ∀ (fuel idx : Nat), ∃ r, (waitPoll polls idx fuel).1 = .ok r := by
  intro fuel
  induction fuel with
  | zero => intro idx; exact ⟨(false, none), rfl⟩
  | succ n ih =>
    intro idx
    show ∃ r, (waitPoll polls idx (n + 1)).1 = .ok r
    unfold waitPoll
    rcases hp : polls idx with _ | info
    · simpa using ih (idx + 1)
    · by_cases hs : normStatus info ∈ successStatuses
      · by_cases ht : truthyJ (folderVal info) = true
        · rcases hnum idx info hp ht with ⟨n', hn⟩
          exact ⟨(true, some n'), by simp [hs, ht, hn, Except.map]⟩
        · exact ⟨(true, none), by simp [hs, ht]⟩
      · by_cases hf : normStatus info ∈ failureStatuses
        · exact ⟨(false, none), by simp [hs, hf]⟩
        · have h2 := ih (idx + 1)
          rcases h2 with ⟨r, hr⟩
          exact ⟨r, by simp [hs, hf, hr]⟩

theorem pyMaxSizeFold_mem (f : FileEntry) (fs : List FileEntry) :
    pyMaxSizeFold f fs ∈ f :: fs := by
  induction fs generalizing f with
  | nil => simp [pyMaxSizeFold]
  | cons x xs ih =>
    have h : pyMaxSizeFold f (x :: xs)
        = pyMaxSizeFold (if x.size > f.size then x else f) xs := rfl
    rw [h]
    rcases List.mem_cons.1 (ih (if x.size > f.size then x else f)) with h1 | h1
    · rw [h1]
      by_cases hx : x.size > f.size
      · simp [hx]
      · simp [hx]
    · exact List.mem_cons_of_mem _ (List.mem_cons_of_mem _ h1)

theorem get_largest_file_mem {env : SeedrEnv} {fid : Option Int} {mf : FileEntry}
    (h : get_largest_file env fid = some mf) :
    ∃ d, env.folders fid = some d ∧ mf ∈ d.files := by
  unfold get_largest_file at h
  rcases hd : env.folders fid with _ | d
  · rw [hd] at h; cases h
  · rw [hd] at h
    have h2 : (match d.files with
        | [] => (none : Option FileEntry)
        | f :: fs => some (pyMaxSizeFold f fs)) = some mf := h
    rcases hf : d.files with _ | ⟨f, fs⟩
    · rw [hf] at h2; cases h2
    · rw [hf] at h2
      simp only [Option.some.injEq] at h2
      exact ⟨d, rfl, by rw [hf]; exact h2 ▸ pyMaxSizeFold_mem f fs⟩

/-- C8: the polling loop performs at most max_wait_minutes*60/poll_seconds
polls (120 with the defaults used by `process_one_movie`), and when no poll
in the budget reports a recognised success or failure status (missing or
unrecognised responses included) the loop returns the timed-out result
(False, None). -/
theorem c8_polling_bounded_and_times_out :
    (∀ (polls : Nat → Option TransferInfo) (mw ps : Nat),
        (wait_for_download polls mw ps).2 ≤ mw * 60 / ps)
    ∧ (∀ polls : Nat → Option TransferInfo, (wait_for_download polls 60 30).2 ≤ 120)
    ∧ (∀ polls : Nat → Option TransferInfo,
        (∀ i, i < 120 → pollUnrecognized (polls i)) →
        (wait_for_download polls 60 30).1 = .ok (false, none)) := by
  refine ⟨?_, ?_, ?_⟩
  · intro polls mw ps
    exact waitPoll_count_le polls (mw * 60 / ps) 0
  · intro polls
    exact waitPoll_count_le polls 120 0
  · intro polls h
    exact waitPoll_timeout polls 120 0 (fun j h1 h2 => h j (by omega))

/-- Witness for C8: a transfer whose status responses never arrive times
out with (False, None) within the poll budget. -/
theorem c8_polling_bounded_and_times_out_witness :
    (wait_for_download (fun _ => none) 60 30).2 ≤ 120
      ∧ (wait_for_download (fun _ => none) 60 30).1 = .ok (false, none) :=
  ⟨c8_polling_bounded_and_times_out.2.1 (fun _ => none),
   c8_polling_bounded_and_times_out.2.2 (fun _ => none)
     (fun _ _ _ hinfo => Option.noConfusion hinfo)⟩

/-- Environment in which the remote transfer reports a failed status on the
first poll. -/
def envC1fail : SeedrEnv :=
  { addMagnet := fun _ => some 5
    polls := fun _ => some { status := some "failed", state := none,
                             folder_id := JVal.jnull, folder := JVal.jnull }
    folders := fun _ => none
    directLink := fun _ => none }

/-- C1 counterexample: on the remote-job-failure terminal path the fetcher
returns without invoking the teardown even once, so the teardown is not
invoked exactly once on every terminal path. -/
theorem c1_counterexample :
    (wait_for_download envC1fail.polls 60 30).1 = .ok (false, none)
      ∧ deleteCount (process_one_movie envC1fail "magnet:X").2 = 0 := by
  constructor
  · rfl
  · rfl

/-- C1 amended: `delete_transfer_data` is invoked at most once per
`process_one_movie` call, and exactly once precisely when the magnet was
added (truthy transfer id), polling ended in success, and no identifier
conversion raised; on the magnet-add-failure, remote-job-failure and
polling-timeout terminal paths it is not invoked at all. -/
theorem c1_teardown_iff_wait_success (env : SeedrEnv) (magnet : String) :
    deleteCount (process_one_movie env magnet).2 ≤ 1
    ∧ (deleteCount (process_one_movie env magnet).2 = 1 ↔
        (∃ tid, env.addMagnet magnet = some tid ∧ tid ≠ 0)
        ∧ (∃ fid, (wait_for_download env.polls 60 30).1 = .ok (true, fid))
        ∧ (process_one_movie env magnet).1 ≠ .error ()) := by
  rcases ha : env.addMagnet magnet with _ | tid
  · simp [process_one_movie, ha, deleteCount]
  · by_cases h0 : tid = 0
    · subst h0
      simp [process_one_movie, ha, deleteCount]
    · rcases hw : (wait_for_download env.polls 60 30).1 with ⟨⟩ | ⟨ok, fid⟩
      · simp [process_one_movie, ha, h0, hw, deleteCount]
      · cases ok
        · simp [process_one_movie, ha, h0, hw, deleteCount]
        · rcases hg : get_largest_file env fid with _ | mf
          · simp [process_one_movie, ha, h0, hw, hg, deleteCount, isDeleteEv]
          · by_cases ht : truthyJ (fileIdVal mf) = true
            · rcases hp : pyInt (fileIdVal mf) with ⟨⟩ | n
              · simp [process_one_movie, ha, h0, hw, hg, ht, hp, deleteCount, isDeleteEv]
              · simp [process_one_movie, ha, h0, hw, hg, ht, hp, deleteCount, isDeleteEv]
            · simp [process_one_movie, ha, h0, hw, hg, ht, deleteCount, isDeleteEv]

/-- Environment in which the first poll reports success but carries a
non-numeric folder identifier string. -/
def envC2raise : SeedrEnv :=
  { addMagnet := fun _ => some 5
    polls := fun _ => some { status := some "finished", state := none,
                             folder_id := JVal.jstr "abc", folder := JVal.jnull }
    folders := fun _ => none
    directLink := fun _ => none }

/-- C2 counterexample: a success response whose folder identifier is the
non-numeric string "abc" makes `int(folder_id)` raise, and the exception
escapes `process_one_movie`, so the fetcher does not fold every remote
response into None. -/
theorem c2_counterexample :
    (process_one_movie envC2raise "magnet:X").1 = .error () := by
  rfl

/-- C2 amended: `process_one_movie` returns None on every terminal
non-success state and raises no exception, provided every truthy folder or
file identifier field in the remote responses is numeric (an integer or a
digit string); with a non-numeric identifier string the `int()` conversion
raises and the exception escapes. -/
theorem c2_none_on_failure_no_raise (env : SeedrEnv) (magnet : String)
    (hfolder : ∀ i info, env.polls i = some info → truthyJ (folderVal info) = true →
      ∃ n, pyInt (folderVal info) = .ok n)
    (hfile : ∀ fid d, env.folders fid = some d →
      ∀ f, f ∈ d.files → truthyJ (fileIdVal f) = true → ∃ n, pyInt (fileIdVal f) = .ok n) :
    (∃ r, (process_one_movie env magnet).1 = .ok r)
    ∧ ((wait_for_download env.polls 60 30).1 = .ok (false, none) →
        (process_one_movie env magnet).1 = .ok none) := by
  rcases ha : env.addMagnet magnet with _ | tid
  · exact ⟨⟨none, by simp [process_one_movie, ha]⟩, fun _ => by simp [process_one_movie, ha]⟩
  · by_cases h0 : tid = 0
    · subst h0
      exact ⟨⟨none, by simp [process_one_movie, ha]⟩, fun _ => by simp [process_one_movie, ha]⟩
    · rcases hw : (wait_for_download env.polls 60 30).1 with ⟨⟩ | ⟨ok, fid⟩
      · exfalso
        rcases waitPoll_no_error env.polls hfolder (60 * 60 / 30) 0 with ⟨r, hr⟩
        rw [show (wait_for_download env.polls 60 30).1
            = (waitPoll env.polls 0 (60 * 60 / 30)).1 from rfl] at hw
        rw [hr] at hw
        cases hw
      · cases ok
        · refine ⟨⟨none, by simp [process_one_movie, ha, h0, hw]⟩, fun _ => ?_⟩
          simp [process_one_movie, ha, h0, hw]
        · refine ⟨?_, fun hcontra => ?_⟩
          · rcases hg : get_largest_file env fid with _ | mf
            · exact ⟨none, by simp [process_one_movie, ha, h0, hw, hg]⟩
            · by_cases ht : truthyJ (fileIdVal mf) = true
              · rcases get_largest_file_mem hg with ⟨d, hd, hmem⟩
                rcases hfile fid d hd mf hmem ht with ⟨n, hn⟩
                exact ⟨env.directLink n, by simp [process_one_movie, ha, h0, hw, hg, ht, hn]⟩
              · exact ⟨none, by simp [process_one_movie, ha, h0, hw, hg, ht]⟩
          · simp at hcontra

/-- Environment in which the remote transfer fails cleanly. -/
def envC2ok : SeedrEnv :=
  { addMagnet := fun _ => some 5
    polls := fun _ => some { status := some "failed", state := none,
                             folder_id := JVal.jnull, folder := JVal.jnull }
    folders := fun _ => none
    directLink := fun _ => none }

/-- Witness for the amended C2 on a concrete environment with numeric-only
identifiers. -/
theorem c2_none_on_failure_no_raise_witness :
    (∃ r, (process_one_movie envC2ok "magnet:X").1 = .ok r)
    ∧ ((wait_for_download envC2ok.polls 60 30).1 = .ok (false, none) →
        (process_one_movie envC2ok "magnet:X").1 = .ok none) :=
  c2_none_on_failure_no_raise envC2ok "magnet:X"
    (fun _ info h ht => by
      cases h
      exact absurd ht (by decide))
    (fun _ _ h => Option.noConfusion h)

/-- C10: when the first poll reports a recognised success status whose
folder identifier fields are absent or falsy, `wait_for_download` returns
success with a None folder handle, and `process_one_movie` then lists the
account's root folder (the `list_folder` call with a None handle, GET
/rest/folder), picks the largest file there (the first maximal one), and
tears down using the None folder handle. -/
theorem c10_root_listing_on_missing_folder
    (env : SeedrEnv) (magnet : String) (tid : Int) (info : TransferInfo)
    (d : FolderData) (f : FileEntry) (fs : List FileEntry) (n : Int)
    (ha : env.addMagnet magnet = some tid) (h0 : tid ≠ 0)
    (hp : env.polls 0 = some info)
    (hs : normStatus info ∈ successStatuses)
    (hfv : truthyJ (folderVal info) = false)
    (hd : env.folders none = some d)
    (hfiles : d.files = f :: fs)
    (ht : truthyJ (fileIdVal (pyMaxSizeFold f fs)) = true)
    (hn : pyInt (fileIdVal (pyMaxSizeFold f fs)) = .ok n) :
    (wait_for_download env.polls 60 30).1 = .ok (true, none)
    ∧ process_one_movie env magnet
        = (.ok (env.directLink n), [.listFolder none, .getLink n, .deleteData tid none]) := by
  have hwait : (wait_for_download env.polls 60 30).1 = .ok (true, none) := by
    show (waitPoll env.polls 0 (60 * 60 / 30)).1 = .ok (true, none)
    rw [show (60 * 60 / 30 : Nat) = 119 + 1 from rfl]
    unfold waitPoll
    rw [hp]
    simp [hs, hfv]
  have hlarge : get_largest_file env none = some (pyMaxSizeFold f fs) := by
    unfold get_largest_file
    rw [hd]
    show (match d.files with
      | [] => (none : Option FileEntry)
      | f :: fs => some (pyMaxSizeFold f fs)) = some (pyMaxSizeFold f fs)
    rw [hfiles]
  refine ⟨hwait, ?_⟩
  simp [process_one_movie, ha, h0, hwait, hlarge, ht, hn]

/-- Environment for the C10 witness: success status with no folder field,
one file in the root folder. -/
def envC10root : SeedrEnv :=
  { addMagnet := fun _ => some 7
    polls := fun _ => some { status := some "finished", state := none,
                             folder_id := JVal.jnull, folder := JVal.jnull }
    folders := fun fid => if fid = none then
        some ⟨[{ idField := JVal.jnum 9, file_id := JVal.jnull, size := 1000,
                 name := "movie.mkv" }]⟩
      else none
    directLink := fun _ => some "https://dl.example/9" }

/-- Witness for C10 on the concrete environment. -/
theorem c10_root_listing_on_missing_folder_witness :
    (wait_for_download envC10root.polls 60 30).1 = .ok (true, none)
    ∧ process_one_movie envC10root "magnet:X"
        = (.ok (envC10root.directLink 9), [.listFolder none, .getLink 9, .deleteData 7 none]) :=
  c10_root_listing_on_missing_folder envC10root "magnet:X" 7
    { status := some "finished", state := none, folder_id := JVal.jnull, folder := JVal.jnull }
    ⟨[{ idField := JVal.jnum 9, file_id := JVal.jnull, size := 1000, name := "movie.mkv" }]⟩
    { idField := JVal.jnum 9, file_id := JVal.jnull, size := 1000, name := "movie.mkv" } [] 9
    rfl (by decide) rfl (by decide) rfl rfl rfl rfl rfl

/-! ## Distributor lemmas -/

theorem sTruthy_getD {o : Option String} (h : sTruthy o = true) : o.getD "" ≠ "" := by
  cases o with
  | none => simp [sTruthy] at h
  | some s => simpa [sTruthy] using h

theorem upload_to_lulu_url_ne {base : String} {resp : Option LuluResp}
    {w : String} {i : Option String}
    (h : upload_to_lulu base resp = some (w, i)) : w ≠ "" := by
  rcases resp with _ | d
  · cases h
  · by_cases he : d.error_flag = true
    · simp [upload_to_lulu, he] at h
    · by_cases hg : sTruthy (luluWatchUrl base d) = true
      · simp only [upload_to_lulu, he, Bool.false_eq_true, if_false, hg, if_true,
          Option.some.injEq, Prod.mk.injEq] at h
        rcases h with ⟨hw, -⟩
        exact hw ▸ sTruthy_getD hg
      · simp [upload_to_lulu, he, hg] at h

theorem upload_to_dg_url_ne {base : String} {resp : Option DGResp}
    {u : String} {i : Option String}
    (h : upload_to_dg base resp = some (u, i)) : u ≠ "" := by
  rcases resp with _ | d
  · cases h
  · by_cases he : d.error_flag = true
    · simp [upload_to_dg, he] at h
    · by_cases hg : sTruthy (dgDownloadUrl base d) = true
      · simp only [upload_to_dg, he, Bool.false_eq_true, if_false, hg, if_true,
          Option.some.injEq, Prod.mk.injEq] at h
        rcases h with ⟨hw, -⟩
        exact hw ▸ sTruthy_getD hg
      · simp [upload_to_dg, he, hg] at h

theorem upload_generic_url_ne {base : String} {resp : Option GenResp}
    {u : String} {i : Option String}
    (h : upload_generic_ppd base resp = some (u, i)) : u ≠ "" := by
  rcases resp with _ | d
  · cases h
  · simp only [upload_generic_ppd] at h
    split at h
    · simp only [Option.some.injEq, Prod.mk.injEq] at h
      rcases h with ⟨hw, -⟩
      intro hempty
      rw [← hw] at hempty
      have hlen := congrArg String.length hempty
      simp [String.length_append] at hlen
      exact absurd hlen.1.2 (by decide)
    · cases h

/-- C4: the Distributor's remote_upload returns a non-null result exactly
when the stream adapter (invoked only when its host is configured), the
download adapter (invoked only when its host is configured), or the generic
fallback (invoked only when the download adapter produced nothing and the
fallback is configured) yielded a URL; any non-null result carries a
non-empty watch URL or a non-empty download URL (and both keys are always
present, either possibly None); and in the concrete scenario where the
stream adapter fails while the download adapter returns
{"download_url": "https://x/y"} the result is non-null with watch_url None. -/
theorem c4_distributor_nonnull_iff :
    (∀ (cfg : PPDConfig) (lr : Option LuluResp) (dr : Option DGResp) (gr : Option GenResp),
        ((remote_upload cfg lr dr gr).isSome = true ↔
          ((strT cfg.lulu_base && strT cfg.lulu_key) = true
              ∧ (upload_to_lulu cfg.lulu_base lr).isSome = true)
          ∨ (strT cfg.dg_base = true ∧ (upload_to_dg cfg.dg_base dr).isSome = true)
          ∨ ((strT cfg.dg_base = true → upload_to_dg cfg.dg_base dr = none)
              ∧ (strT cfg.generic_base && strT cfg.generic_key) = true
              ∧ (upload_generic_ppd cfg.generic_base gr).isSome = true))
        ∧ ∀ r, remote_upload cfg lr dr gr = some r →
            sTruthy r.watch_url = true ∨ sTruthy r.download_url = true)
    ∧ remote_upload ⟨"", "", "https://dg.example", "", "", ""⟩ none
        (some ⟨false, some "idX", none, none, some "https://x/y", none⟩) none
      = some ⟨none, some "https://x/y", none, some "idX"⟩ := by
  constructor
  · intro cfg lr dr gr
    constructor
    · by_cases hl : (strT cfg.lulu_base && strT cfg.lulu_key) = true <;>
        by_cases hd : strT cfg.dg_base = true <;>
        by_cases hg : (strT cfg.generic_base && strT cfg.generic_key) = true <;>
        rcases hlo : upload_to_lulu cfg.lulu_base lr with _ | ⟨w, li⟩ <;>
        rcases hdo : upload_to_dg cfg.dg_base dr with _ | ⟨u, di⟩ <;>
        rcases hgo : upload_generic_ppd cfg.generic_base gr with _ | ⟨gu, gi⟩ <;>
        (try have hw : w ≠ "" := upload_to_lulu_url_ne hlo) <;>
        (try have hu : u ≠ "" := upload_to_dg_url_ne hdo) <;>
        (try have hgu : gu ≠ "" := upload_generic_url_ne hgo) <;>
        simp [remote_upload, luluOut, dgOut, finalDownloadUrl, hl, hd, hg,
          hlo, hdo, hgo, sTruthy, *]
    · intro r hr
      by_cases hc : (sTruthy ((luluOut cfg lr).map Prod.fst)
          || sTruthy (finalDownloadUrl cfg dr gr)) = true
      · rw [remote_upload, if_pos hc] at hr
        have hc' : sTruthy ((luluOut cfg lr).map Prod.fst) = true
            ∨ sTruthy (finalDownloadUrl cfg dr gr) = true := by simpa using hc
        have hreq := (Option.some.injEq _ _ ▸ hr : _ = r)
        rcases hc' with h1 | h1
        · exact Or.inl (by rw [← hreq]; exact h1)
        · exact Or.inr (by rw [← hreq]; exact h1)
      · rw [remote_upload, if_neg hc] at hr
        cases hr
  · decide

/-- Witness for C4: the claim's scenario instantiates the soundness clause. -/
theorem c4_distributor_nonnull_iff_witness :
    sTruthy (UploadResult.mk none (some "https://x/y") none (some "idX")).watch_url = true
      ∨ sTruthy (UploadResult.mk none (some "https://x/y") none (some "idX")).download_url
          = true :=
  (c4_distributor_nonnull_iff.1 ⟨"", "", "https://dg.example", "", "", ""⟩ none
      (some ⟨false, some "idX", none, none, some "https://x/y", none⟩) none).2
    ⟨none, some "https://x/y", none, some "idX"⟩ c4_distributor_nonnull_iff.2

/-! ## Catalog store lemmas -/

/-- The store effect of `MovieProcessor._save_to_database`: build the movie
document from the arguments and upsert it keyed on (title, year) via
`update_one(..., upsert=True)`. -/
def save_to_database (store : List MovieDoc) (title : String) (year : Option Int)
    (watch_url download_url : String) (poster_path : Option String)
    (description : String) (rating : Option ℚ) : List MovieDoc :=
  upsertMovie store
    { title := title, year := year, watch_url := watch_url,
      download_url := download_url, poster_path := poster_path,
      description := description, rating := rating }

theorem updateFirst_countKey {t : String} {y : Option Int} {doc : MovieDoc}
    (hdoc : keyMatches t y doc = true) :
    ∀ store : List MovieDoc,
      countKey (updateFirst (keyMatches t y) doc store) t y = countKey store t y := by
  intro store
  induction store with
  | nil => rfl
  | cons x xs ih =>
    by_cases hx : keyMatches t y x = true
    · simp [updateFirst, hx, countKey, List.filter_cons, hdoc]
    · simp only [updateFirst, hx, Bool.false_eq_true, if_false]
      simp only [countKey, List.filter_cons, hx] at ih ⊢
      exact ih

theorem upsertMovie_countKey (store : List MovieDoc) (doc : MovieDoc) :
    countKey (upsertMovie store doc) doc.title doc.year
      = max (countKey store doc.title doc.year) 1 := by
  have hdoc : keyMatches doc.title doc.year doc = true := by simp [keyMatches]
  by_cases h : store.any (keyMatches doc.title doc.year) = true
  · rw [upsertMovie, if_pos h, updateFirst_countKey hdoc]
    rcases List.any_eq_true.1 h with ⟨x, hx, hpx⟩
    have hmem : x ∈ store.filter (keyMatches doc.title doc.year) :=
      List.mem_filter.2 ⟨hx, hpx⟩
    have hpos : 0 < countKey store doc.title doc.year := by
      rw [countKey]
      exact List.length_pos.2 (List.ne_nil_of_mem hmem)
    omega
  · rw [upsertMovie, if_neg h]
    have h0 : countKey store doc.title doc.year = 0 := by
      rw [countKey, List.length_eq_zero]
      rw [List.filter_eq_nil_iff]
      intro a ha
      by_contra hcon
      exact h (List.any_eq_true.2 ⟨a, ha, by simpa using hcon⟩)
    rw [countKey] at h0
    rw [List.length_eq_zero] at h0
    rw [countKey, List.filter_append]
    simp [countKey, h0, List.filter_cons, hdoc]

theorem foldl_upsert_countKey (t : String) (y : Option Int) :
    ∀ (docs : List MovieDoc) (store : List MovieDoc), docs ≠ [] →
      (∀ d ∈ docs, d.title = t ∧ d.year = y) →
      countKey (docs.foldl upsertMovie store) t y = max (countKey store t y) 1 := by
  intro docs
  induction docs with
  | nil => intro store hne _; exact absurd rfl hne
  | cons d ds ih =>
    intro store _ hall
    rcases hall d (List.mem_cons_self _ _) with ⟨hdt, hdy⟩
    have hstep : countKey (upsertMovie store d) t y = max (countKey store t y) 1 := by
      have := upsertMovie_countKey store d
      rw [hdt, hdy] at this
      exact this
    cases ds with
    | nil =>
      simpa [List.foldl] using hstep
    | cons d2 ds2 =>
      have ihh := ih (upsertMovie store d) (by simp)
        (fun x hx => hall x (List.mem_cons_of_mem _ hx))
      simp only [List.foldl] at ihh ⊢
      rw [ihh, hstep]
      rw [Nat.max_assoc]
      simp

/-- C5: starting from a store holding at most one document for a
(title, year) key, any non-empty sequence of `_save_to_database`
submissions for that key leaves exactly one document for the key: the
`update_one` upsert merges into the existing document instead of
duplicating it. -/
theorem c5_upsert_keeps_key_unique (store : List MovieDoc) (t : String) (y : Option Int)
    (docs : List MovieDoc)
    (hinv : countKey store t y ≤ 1) (hne : docs ≠ [])
    (hall : ∀ d ∈ docs, d.title = t ∧ d.year = y) :
    countKey
      (docs.foldl (fun s d =>
        save_to_database s d.title d.year d.watch_url d.download_url d.poster_path
          d.description d.rating) store) t y = 1 := by
  have hfold : countKey (docs.foldl upsertMovie store) t y = max (countKey store t y) 1 :=
    foldl_upsert_countKey t y docs store hne hall
  have heq : docs.foldl (fun s d =>
      save_to_database s d.title d.year d.watch_url d.download_url d.poster_path
        d.description d.rating) store = docs.foldl upsertMovie store := rfl
  rw [heq, hfold]
  omega

/-- Witness for C5: submitting the same (title, year) document twice into an
empty store leaves exactly one document. -/
theorem c5_upsert_keeps_key_unique_witness :
    countKey
      ([MovieDoc.mk "Amaran" (some 2024) "w" "d" none "" none,
        MovieDoc.mk "Amaran" (some 2024) "w2" "d2" none "desc" none].foldl
        (fun s d =>
          save_to_database s d.title d.year d.watch_url d.download_url d.poster_path
            d.description d.rating) []) "Amaran" (some 2024) = 1 :=
  c5_upsert_keeps_key_unique [] "Amaran" (some 2024)
    [MovieDoc.mk "Amaran" (some 2024) "w" "d" none "" none,
     MovieDoc.mk "Amaran" (some 2024) "w2" "d2" none "desc" none]
    (by decide) (by decide) (by decide)

/-! ## Batch scan theorems -/

/-- Batch environment in which the single scanned movie is already
catalogued. -/
def scanEnvSkip : ScanEnv :=
  { existsInDb := fun _ _ => true
    torrentsFor := fun _ => []
    processSuccess := fun _ => false }

/-- C7 counterexample: an item skipped as already catalogued produces no
pause event at all — the `continue` jumps past the `asyncio.sleep(5)` — so
the pause does not follow every item regardless of outcome. -/
theorem c7_counterexample :
    auto_scan_tamilmv scanEnvSkip [⟨"Amaran", some 2024, "https://t/1"⟩]
        = [.skippedExisting "Amaran"]
      ∧ BatchEv.pause 5 ∉ auto_scan_tamilmv scanEnvSkip [⟨"Amaran", some 2024, "https://t/1"⟩] := by
  constructor
  · rfl
  · decide

/-- C7 amended: the batch loop handles items strictly sequentially in list
order (the trace of a concatenated batch is the concatenation of the
traces), and the fixed 5-second pause follows exactly the items that reach
full processing (whatever its outcome); items skipped as already
catalogued, with no torrents found, or with no acceptable candidate
continue to the next item without a pause. -/
theorem c7_sequential_pause_after_processing_only :
    (∀ (env : ScanEnv) (ms1 ms2 : List ScrapedMovie),
        auto_scan_tamilmv env (ms1 ++ ms2)
          = auto_scan_tamilmv env ms1 ++ auto_scan_tamilmv env ms2)
    ∧ (∀ (env : ScanEnv) (m : ScrapedMovie),
        env.existsInDb m.title m.year = false →
        (env.torrentsFor m.topic_url).isEmpty = false →
        ∀ best, select_best_torrent SELECTION_RULES (env.torrentsFor m.topic_url) = some best →
        scanStep env m = [.processed m.title (env.processSuccess best.magnet), .pause 5])
    ∧ (∀ (env : ScanEnv) (m : ScrapedMovie),
        (env.existsInDb m.title m.year = true
          ∨ (env.torrentsFor m.topic_url).isEmpty = true
          ∨ select_best_torrent SELECTION_RULES (env.torrentsFor m.topic_url) = none) →
        BatchEv.pause 5 ∉ scanStep env m) := by
  refine ⟨?_, ?_, ?_⟩
  · intro env ms1 ms2
    simp [auto_scan_tamilmv]
  · intro env m h1 h2 best h3
    simp [scanStep, h1, h2, h3]
  · intro env m h
    by_cases h1 : env.existsInDb m.title m.year = true
    · simp [scanStep, h1]
    · by_cases h2 : (env.torrentsFor m.topic_url).isEmpty = true
      · simp [scanStep, h1, h2]
      · rcases h with ha | hb | hc
        · exact absurd ha h1
        · exact absurd hb h2
        · simp [scanStep, h1, h2, hc]

/-- Batch environment in which the single scanned movie is new and has one
acceptable torrent. -/
def scanEnvGo : ScanEnv :=
  { existsInDb := fun _ _ => false
    torrentsFor := fun _ => [⟨"Movie 1080p", "magnet:Z", 2⟩]
    processSuccess := fun _ => true }

/-- Witness for the amended C7 on concrete environments. -/
theorem c7_sequential_pause_after_processing_only_witness :
    scanStep scanEnvGo ⟨"Kanguva", some 2024, "https://t/2"⟩
        = [.processed "Kanguva" (scanEnvGo.processSuccess "magnet:Z"), .pause 5]
      ∧ BatchEv.pause 5 ∉ scanStep scanEnvSkip ⟨"Amaran", some 2024, "https://t/1"⟩ :=
  ⟨c7_sequential_pause_after_processing_only.2.1 scanEnvGo ⟨"Kanguva", some 2024, "https://t/2"⟩
      rfl rfl ⟨"Movie 1080p", "magnet:Z", 2⟩ (by decide),
   c7_sequential_pause_after_processing_only.2.2 scanEnvSkip ⟨"Amaran", some 2024, "https://t/1"⟩
      (Or.inl rfl)⟩
